import Mathlib

/-!
# Verification of the used-value geometry resolver (`weasy/layout.py`)

Shallow embedding of the CSS2.1 block width/margin resolution module.
Numeric style magnitudes are modelled as rationals (`ℚ`); Python exceptions
(assertion failures and type errors on `auto` arithmetic) are modelled by
`Except Unit`.  Computed style values are lists of components carrying a type
tag, an optional dimension unit and a payload that is either a number or a
string, mirroring the cssutils value objects consumed by the source.
-/

namespace Weasy

/-- Payload of a cssutils value component: a number, or a string keyword. -/
inductive CompValue where
  | num (q : ℚ)
  | str (s : String)
deriving DecidableEq, Repr

/-- Predicate true exactly when the payload is numeric (Python
`isinstance(value, (int, float))`). -/
def CompValue.isNum : CompValue → Bool
  | .num _ => true
  | .str _ => false

/-- One component of a computed style value: `type` tag (for instance
`"DIMENSION"` or `"PERCENTAGE"`), optional `dimension` unit, and payload. -/
structure Component where
  type : String
  dimension : Option String
  value : CompValue
deriving DecidableEq, Repr

/-- A computed style value: its component list (supports `len(value)` and
`value[0]`) together with the object-level `.value` attribute. -/
structure StyleValue where
  components : List Component
  value : CompValue
deriving DecidableEq, Repr

/-- A used length value: a number, or the sentinel `auto`. -/
inductive LengthOrAuto where
  | auto
  | len (q : ℚ)
deriving DecidableEq, Repr

/-- Numeric projection of a used value; `none` for the `auto` sentinel. -/
def LengthOrAuto.toNum : LengthOrAuto → Option ℚ
  | .auto => none
  | .len q => some q

/-- Numeric value with `auto` read as `0` (the source adds a margin to a
running total only when it is not `auto`, which is the same thing). -/
def LengthOrAuto.orZero : LengthOrAuto → ℚ
  | .auto => 0
  | .len q => q

/-- Replace the `auto` sentinel by the length `0`, keep numbers unchanged. -/
def LengthOrAuto.autoTo0 : LengthOrAuto → LengthOrAuto
  | .auto => .len 0
  | .len q => .len q

/-- Source `pixel_value` (layout.py 25–39): the numeric value of a pixel length, `0`
for a bare zero, otherwise `none`.  The `assert isinstance(...)` on a
`DIMENSION`-px component with a non-numeric payload is an error. -/
def pixel_value (value : List Component) : Except Unit (Option ℚ) :=
  match value with
  | [c] =>
    if c.type = "DIMENSION" ∧ c.dimension = some "px" then
      match c.value with
      | .num q => .ok (some q)
      | .str _ => .error ()
    else if c.value = .num 0 then
      .ok (some 0)
    else
      .ok none
  | _ => .ok none

/-- Source `percentage_value` (layout.py 42–52): the numeric value of a percentage,
otherwise `none`; asserts that a `PERCENTAGE` payload is numeric. -/
def percentage_value (value : List Component) : Except Unit (Option ℚ) :=
  match value with
  | [c] =>
    if c.type = "PERCENTAGE" then
      match c.value with
      | .num q => .ok (some q)
      | .str _ => .error ()
    else
      .ok none
  | _ => .ok none

/-- Source `resolve_one_percentage` (layout.py 55–77): used value from a computed
value.  `refer_to` is the length for 100%; `none` models a containing-block
height that is not known (multiplying a percentage by Python `None` raises,
hence `.error`).  A value that is not a pixel length, a bare zero or a
percentage must be the keyword `auto`, otherwise the final assert fails. -/
def resolve_one_percentage (v : StyleValue) (refer_to : Option ℚ) :
    Except Unit LengthOrAuto :=
  match pixel_value v.components with
  | .error e => .error e
  | .ok (some pixels) => .ok (.len pixels)
  | .ok none =>
    match percentage_value v.components with
    | .error e => .error e
    | .ok (some percentage) =>
      match refer_to with
      | some r => .ok (.len (percentage * r / 100))
      | none => .error ()
    | .ok none =>
      if v.value = .str "auto" then .ok .auto else .error ()

/-- The computed style of a box, restricted to the properties this module reads.
Border widths are already numeric in computed values (percentages are not
permitted on borders); `direction` is only ever read on the parent. -/
structure Style where
  margin_left : StyleValue
  margin_right : StyleValue
  margin_top : StyleValue
  margin_bottom : StyleValue
  padding_left : StyleValue
  padding_right : StyleValue
  padding_top : StyleValue
  padding_bottom : StyleValue
  text_indent : StyleValue
  width : StyleValue
  min_width : StyleValue
  max_width : StyleValue
  min_height : StyleValue
  max_height : StyleValue
  height : StyleValue
  border_top_width : ℚ
  border_right_width : ℚ
  border_bottom_width : ℚ
  border_left_width : ℚ
  direction : String
deriving DecidableEq, Repr

/-- The used values written on a box by `resolve_percentages`.
`max_width`/`max_height` are `none` when unconstrained (Python `None`). -/
structure Resolved where
  margin_left : LengthOrAuto
  margin_right : LengthOrAuto
  margin_top : LengthOrAuto
  margin_bottom : LengthOrAuto
  padding_left : LengthOrAuto
  padding_right : LengthOrAuto
  padding_top : LengthOrAuto
  padding_bottom : LengthOrAuto
  text_indent : LengthOrAuto
  width : LengthOrAuto
  min_width : LengthOrAuto
  max_width : Option LengthOrAuto
  min_height : LengthOrAuto
  max_height : Option LengthOrAuto
  height : LengthOrAuto
  border_top_width : ℚ
  border_right_width : ℚ
  border_bottom_width : ℚ
  border_left_width : ℚ
deriving DecidableEq, Repr

/-- layout.py 100–103: used `max-width` is `None` (unconstrained) when the
computed keyword is `none`, otherwise resolved against the containing-block
width. -/
def resolve_max_width (style : Style) (cb_width : ℚ) :
    Except Unit (Option LengthOrAuto) :=
  if style.max_width.value = .str "none" then .ok none
  else
    match resolve_one_percentage style.max_width (some cb_width) with
    | .ok v => .ok (some v)
    | .error e => .error e

/-- layout.py 105–117: the height-related used values `(min_height,
max_height, height)`.  When the containing-block height is unknown they are
set to `0`, unconstrained and `auto` without any percentage resolution. -/
def resolve_heights (style : Style) (cb_height : Option ℚ) :
    Except Unit (LengthOrAuto × Option LengthOrAuto × LengthOrAuto) :=
  match cb_height with
  | none => .ok (.len 0, none, .auto)
  | some cbh =>
    let mxh : Except Unit (Option LengthOrAuto) :=
      if style.max_height.value = .str "none" then .ok none
      else
        match resolve_one_percentage style.max_height (some cbh) with
        | .ok v => .ok (some v)
        | .error e => .error e
    match mxh, resolve_one_percentage style.min_height (some cbh),
          resolve_one_percentage style.height (some cbh) with
    | .ok mx, .ok mn, .ok h => .ok (mn, mx, h)
    | _, _, _ => .error ()

/-- Source `resolve_percentages` (layout.py 80–123): set used values from computed
values.  Margins, paddings, `text-indent`, `width` and `min-width` resolve
against the containing-block width; top/bottom margins and paddings resolve
against the containing-block height only for a page box.  Any assertion
failure in a single resolution aborts the pass (`.error`). -/
def resolve_percentages (style : Style) (isPage : Bool) (cb_width : ℚ)
    (cb_height : Option ℚ) : Except Unit Resolved :=
  let tbRef : Option ℚ := if isPage then cb_height else some cb_width
  match resolve_one_percentage style.margin_left (some cb_width),
        resolve_one_percentage style.margin_right (some cb_width),
        resolve_one_percentage style.padding_left (some cb_width),
        resolve_one_percentage style.padding_right (some cb_width),
        resolve_one_percentage style.text_indent (some cb_width),
        resolve_one_percentage style.width (some cb_width),
        resolve_one_percentage style.min_width (some cb_width),
        resolve_one_percentage style.margin_top tbRef,
        resolve_one_percentage style.margin_bottom tbRef,
        resolve_one_percentage style.padding_top tbRef,
        resolve_one_percentage style.padding_bottom tbRef,
        resolve_max_width style cb_width,
        resolve_heights style cb_height with
  | .ok ml, .ok mr, .ok pl, .ok pr, .ok ti, .ok w, .ok mnw, .ok mt, .ok mb,
    .ok pt, .ok pb, .ok mxw, .ok hs =>
    .ok { margin_left := ml, margin_right := mr, margin_top := mt,
          margin_bottom := mb, padding_left := pl, padding_right := pr,
          padding_top := pt, padding_bottom := pb, text_indent := ti,
          width := w, min_width := mnw, max_width := mxw,
          min_height := hs.1, max_height := hs.2.1, height := hs.2.2,
          border_top_width := style.border_top_width,
          border_right_width := style.border_right_width,
          border_bottom_width := style.border_bottom_width,
          border_left_width := style.border_left_width }
  | _, _, _, _, _, _, _, _, _, _, _, _, _ => .error ()

/-- The CSS2.1 width/margin constraint solver, layout.py 184–220, given the
already-resolved paddings, border widths and the possibly-`auto` width and
margins.  Returns the final `(width, margin_left, margin_right)`. -/
def solve_block_width (cb_width pl pr bl br : ℚ)
    (width0 margin_l0 margin_r0 : LengthOrAuto) (direction : String) :
    ℚ × ℚ × ℚ :=
  let paddings_plus_borders := pl + pr + bl + br
  -- ll.185–195: over-constraint relief, auto margins forced to 0
  let relief : LengthOrAuto × LengthOrAuto :=
    match width0 with
    | .len w =>
      let total := paddings_plus_borders + w + margin_l0.orZero +
        margin_r0.orZero
      if total > cb_width then (margin_l0.autoTo0, margin_r0.autoTo0)
      else (margin_l0, margin_r0)
    | .auto => (margin_l0, margin_r0)
  -- ll.196–205: over-determined system, one margin recomputed by direction
  let step2 : LengthOrAuto × LengthOrAuto :=
    match width0, relief.1, relief.2 with
    | .len w, .len ml, .len mr =>
      let margin_sum := cb_width - paddings_plus_borders - w
      if direction = "ltr" then (.len ml, .len (margin_sum - ml))
      else (.len (margin_sum - mr), .len mr)
    | _, _, _ => (relief.1, relief.2)
  -- ll.206–212: auto width
  let step3 : ℚ × LengthOrAuto × LengthOrAuto :=
    match width0 with
    | .auto =>
      let ml := (step2.1).orZero
      let mr := (step2.2).orZero
      (cb_width - (paddings_plus_borders + ml + mr), .len ml, .len mr)
    | .len w => (w, step2.1, step2.2)
  -- ll.213–220: resolve remaining auto margins
  let margin_sum := cb_width - paddings_plus_borders - step3.1
  match step3.2.1, step3.2.2 with
  | .auto, .auto => (step3.1, margin_sum / 2, margin_sum / 2)
  | .auto, .len mr => (step3.1, margin_sum - mr, mr)
  | .len ml, .auto => (step3.1, ml, margin_sum - ml)
  | .len ml, .len mr => (step3.1, ml, mr)

/-- Source `block_level_dimensions` (layout.py 162–226): resolve percentages, run the
width/margin solver, then the sanity-check assertion.  Adding an `auto`
padding to a number raises in Python, hence the numeric-padding projection.
The parent style direction is passed in (the source reads
`box.parent.style.direction`). -/
def block_level_dimensions (style : Style) (parent_direction : String)
    (cb_width : ℚ) (cb_height : Option ℚ) : Except Unit Resolved :=
  match resolve_percentages style false cb_width cb_height with
  | .error _ => .error ()
  | .ok r =>
    match r.padding_left.toNum, r.padding_right.toNum with
    | some pl, some pr =>
      let s := solve_block_width cb_width pl pr r.border_left_width
        r.border_right_width r.width r.margin_left r.margin_right
        parent_direction
      if s.2.1 + s.2.2 + pl + pr + r.border_left_width +
          r.border_right_width + s.1 = cb_width then
        .ok { r with
              width := .len s.1,
              margin_left := .len s.2.1,
              margin_right := .len s.2.2 }
      else .error ()
    | _, _ => .error ()

/-- Modelled from the spec: the process-wide unit-conversion table
(`css/computed_values.py`, not under `src/`) supplies a fixed
millimeter-to-pixel ratio; CSS fixes it at 96 pixels per 25.4 mm. -/
def LENGTHS_TO_PIXELS_mm : ℚ := 96 / (254 / 10)

/-- Modelled from the spec: `containing_block_size` for a `PageBox`
(`formatting_structure/boxes.py`, not under `src/`) — a page box is its own
frame of reference, so its containing block is its own outer size. -/
def page_containing_block (outer_width outer_height : ℚ) : ℚ × Option ℚ :=
  (outer_width, some outer_height)

/-- The used values written on a page box by `page_dimensions`. -/
structure PageResult where
  resolved : Resolved
  outer_width : ℚ
  outer_height : ℚ
  position_x : ℚ
  position_y : ℚ
  width : ℚ
  height : ℚ
deriving DecidableEq, Repr

/-- Source `page_dimensions` (layout.py 133–153): fixed A4 outer size unless
supplied by the caller, percentage resolution against the page box own outer
size, then position and inner size from the margins (subtracting an `auto`
margin would raise in Python, hence the numeric projections). -/
def page_dimensions (style : Style) (width height : Option ℚ) :
    Except Unit PageResult :=
  let outer_width := match width with
    | none => 210 * LENGTHS_TO_PIXELS_mm
    | some w => w
  let outer_height := match height with
    | none => 297 * LENGTHS_TO_PIXELS_mm
    | some h => h
  let cb := page_containing_block outer_width outer_height
  match resolve_percentages style true cb.1 cb.2 with
  | .error _ => .error ()
  | .ok r =>
    match r.margin_left.toNum, r.margin_right.toNum, r.margin_top.toNum,
          r.margin_bottom.toNum with
    | some ml, some mr, some mt, some mb =>
      .ok { resolved := r, outer_width := outer_width,
            outer_height := outer_height, position_x := ml, position_y := mt,
            width := outer_width - ml - mr, height := outer_height - mt - mb }
    | _, _, _, _ => .error ()

/-- The seven-term box-model sum of a resolved box (the quantity of the
sanity check at layout.py 222–226), when all its terms are numeric. -/
def boxSum (r : Resolved) : Option ℚ :=
  match r.margin_left.toNum, r.margin_right.toNum, r.padding_left.toNum,
        r.padding_right.toNum, r.width.toNum with
  | some ml, some mr, some pl, some pr, some w =>
    some (ml + r.border_left_width + pl + w + pr + r.border_right_width + mr)
  | _, _, _, _, _ => none

/-- The seven-term box-model sum of a resolved page box: margins, paddings
and borders from the resolution pass, `width` as overwritten by
`page_dimensions`. -/
def pageSum (p : PageResult) : Option ℚ :=
  match p.resolved.margin_left.toNum, p.resolved.margin_right.toNum,
        p.resolved.padding_left.toNum, p.resolved.padding_right.toNum with
  | some ml, some mr, some pl, some pr =>
    some (ml + p.resolved.border_left_width + pl + p.width + pr +
      p.resolved.border_right_width + mr)
  | _, _, _, _ => none

/-- A computed pixel length, as cssutils represents it. -/
def pxV (q : ℚ) : StyleValue :=
  { components := [{ type := "DIMENSION", dimension := some "px",
                     value := .num q }],
    value := .num q }

/-- A computed percentage value. -/
def pctV (q : ℚ) : StyleValue :=
  { components := [{ type := "PERCENTAGE", dimension := none,
                     value := .num q }],
    value := .num q }

/-- The computed keyword `auto`. -/
def autoV : StyleValue :=
  { components := [{ type := "IDENT", dimension := none,
                     value := .str "auto" }],
    value := .str "auto" }

/-- The computed keyword `none` (for `max-width`/`max-height`). -/
def noneV : StyleValue :=
  { components := [{ type := "IDENT", dimension := none,
                     value := .str "none" }],
    value := .str "none" }

/-- A baseline style: every length `0px`, unconstrained max sizes,
left-to-right direction. -/
def zeroStyle : Style :=
  { margin_left := pxV 0, margin_right := pxV 0, margin_top := pxV 0,
    margin_bottom := pxV 0, padding_left := pxV 0, padding_right := pxV 0,
    padding_top := pxV 0, padding_bottom := pxV 0, text_indent := pxV 0,
    width := pxV 0, min_width := pxV 0, max_width := noneV,
    min_height := pxV 0, max_height := noneV, height := pxV 0,
    border_top_width := 0, border_right_width := 0, border_bottom_width := 0,
    border_left_width := 0, direction := "ltr" }

/-- The well-formedness promise of the upstream computed-value stage, quoted
in the source comments: the payload of a `DIMENSION` or `PERCENTAGE` component is
a number (`cssutils promises that DimensionValue.value is an int or float`),
and the object-level `.value` of a single-component value is the payload of
its component. -/
def cssutils_wf (v : StyleValue) : Bool :=
  v.components.all (fun c =>
    if c.type = "DIMENSION" ∨ c.type = "PERCENTAGE" then c.value.isNum
    else true)
  && (match v.components with
      | [c] => decide (v.value = c.value)
      | _ => true)

/-- The four accepted shapes of a computed value for these properties: a
pixel length, a single component of magnitude zero, a percentage, or the
keyword `auto`. -/
def accepted_shape (v : StyleValue) : Bool :=
  (match v.components with
   | [c] =>
     (decide (c.type = "DIMENSION") && decide (c.dimension = some "px") &&
       c.value.isNum)
     || decide (c.value = .num 0)
     || (decide (c.type = "PERCENTAGE") && c.value.isNum)
   | _ => false)
  || decide (v.value = .str "auto")

/-- The geometry relations `page_dimensions` establishes between the margins,
, position and inner size (layout.py 148–151). -/
def pageGeom (p : PageResult) : Prop :=
  ∃ ml mr mt mb : ℚ,
    p.resolved.margin_left = .len ml ∧ p.resolved.margin_right = .len mr ∧
    p.resolved.margin_top = .len mt ∧ p.resolved.margin_bottom = .len mb ∧
    p.position_x = ml ∧ p.position_y = mt ∧
    p.width = p.outer_width - ml - mr ∧
    p.height = p.outer_height - mt - mb

/-- The width/margin solver always satisfies the box-model equation of the
sanity check at layout.py 222–226, whatever mix of numbers and `auto`
sentinels it starts from. -/
theorem solve_block_width_sum (cb_width pl pr bl br : ℚ)
    (w0 ml0 mr0 : LengthOrAuto) (dir : String) :
    (solve_block_width cb_width pl pr bl br w0 ml0 mr0 dir).2.1 +
    (solve_block_width cb_width pl pr bl br w0 ml0 mr0 dir).2.2 +
    pl + pr + bl + br +
    (solve_block_width cb_width pl pr bl br w0 ml0 mr0 dir).1 = cb_width := by
  unfold solve_block_width
  cases w0 <;> cases ml0 <;> cases mr0 <;>
    simp only [LengthOrAuto.orZero, LengthOrAuto.autoTo0] <;>
    (try split_ifs) <;> (try simp) <;> ring

/-- C3: when width and both margins are numeric after percentage resolution,
the solver overwrites exactly one margin — the right one when the parent direction is left-to-right, the left one otherwise — to
`margin_sum - other_margin` with `margin_sum = CBW - paddings_plus_borders -
width`, and the other margin keeps its prior value. -/
theorem over_determined_margin (cb_width pl pr bl br w ml mr : ℚ)
    (dir : String) :
    solve_block_width cb_width pl pr bl br (.len w) (.len ml) (.len mr) dir =
      if dir = "ltr" then
        (w, ml, cb_width - (pl + pr + bl + br) - w - ml)
      else
        (w, cb_width - (pl + pr + bl + br) - w - mr, mr) := by
  unfold solve_block_width
  simp only [LengthOrAuto.orZero, LengthOrAuto.autoTo0]
  split_ifs <;> simp

/-- C4: when width resolves to `auto`, each `auto` margin becomes `0` and
the used width becomes `CBW - paddings_plus_borders - margin_left -
margin_right`; in particular Scenario A (`CBW=1000`, everything `auto`,
no paddings or borders) yields width `1000` and zero margins. -/
theorem auto_width_resolution (cb_width pl pr bl br : ℚ)
    (ml mr : LengthOrAuto) (dir : String) :
    solve_block_width cb_width pl pr bl br .auto ml mr dir =
      (cb_width - (pl + pr + bl + br) - ml.orZero - mr.orZero,
        ml.orZero, mr.orZero) ∧
    solve_block_width 1000 0 0 0 0 .auto .auto .auto "ltr" =
      ((1000 : ℚ), (0 : ℚ), (0 : ℚ)) := by
  constructor
  · unfold solve_block_width
    cases ml <;> cases mr <;>
      simp [LengthOrAuto.orZero] <;> ring
  · norm_num [solve_block_width, LengthOrAuto.orZero, LengthOrAuto.autoTo0]

/-- C5: with numeric width, both margins `auto` and no over-constraint
(`paddings_plus_borders + width ≤ CBW`), both margins are set to
`(CBW - paddings_plus_borders - width) / 2`; Scenario B (`CBW=1000`,
`width=800`, no paddings/borders) gives margins of `100` each. -/
theorem even_split_margins (cb_width pl pr bl br w : ℚ) (dir : String)
    (h : pl + pr + bl + br + w ≤ cb_width) :
    solve_block_width cb_width pl pr bl br (.len w) .auto .auto dir =
      (w, (cb_width - (pl + pr + bl + br) - w) / 2,
        (cb_width - (pl + pr + bl + br) - w) / 2) ∧
    solve_block_width 1000 0 0 0 0 (.len 800) .auto .auto dir =
      ((800 : ℚ), (100 : ℚ), (100 : ℚ)) := by
  constructor
  · unfold solve_block_width
    simp only [LengthOrAuto.orZero, LengthOrAuto.autoTo0]
    split_ifs <;>
      first
        | (exfalso; linarith)
        | simp
  · norm_num [solve_block_width, LengthOrAuto.orZero, LengthOrAuto.autoTo0]

/-- Witness for C5 at the concrete input of Scenario B. -/
theorem even_split_margins_witness :
    solve_block_width 1000 0 0 0 0 (.len 800) .auto .auto "ltr" =
      ((800 : ℚ), (100 : ℚ), (100 : ℚ)) :=
  (even_split_margins 1000 0 0 0 0 800 "ltr" (by norm_num)).2

/-- A successful resolution pass with numeric paddings always lets
`block_level_dimensions` complete: the sanity-check branch never fires. -/
theorem block_level_dimensions_total (style : Style) (dir : String)
    (cb_width : ℚ) (cb_height : Option ℚ) (r : Resolved) (pl pr : ℚ)
    (hres : resolve_percentages style false cb_width cb_height =
      Except.ok r)
    (hpl : r.padding_left.toNum = some pl)
    (hpr : r.padding_right.toNum = some pr) :
    ∃ out, block_level_dimensions style dir cb_width cb_height =
      Except.ok out := by
  unfold block_level_dimensions
  rw [hres]
  simp only [hpl, hpr]
  rw [if_pos (solve_block_width_sum cb_width pl pr r.border_left_width
    r.border_right_width r.width r.margin_left r.margin_right dir)]
  exact ⟨_, rfl⟩

/-- C2: whenever percentage resolution succeeds and the resolved paddings
are numeric (border widths always are), `block_level_dimensions` completes
without hitting the final assertion-failure branch, on every path through
the solver. -/
theorem block_level_assert_unreachable (style : Style) (dir : String)
    (cb_width : ℚ) (cb_height : Option ℚ) (r : Resolved) (pl pr : ℚ)
    (hres : resolve_percentages style false cb_width cb_height =
      Except.ok r)
    (hpl : r.padding_left.toNum = some pl)
    (hpr : r.padding_right.toNum = some pr) :
    ∃ out, block_level_dimensions style dir cb_width cb_height =
      Except.ok out :=
  block_level_dimensions_total style dir cb_width cb_height r pl pr
    hres hpl hpr

/-- Witness for C2 at the all-zero style. -/
theorem block_level_assert_unreachable_witness :
    ∃ out, block_level_dimensions zeroStyle "ltr" 1000 none =
      Except.ok out :=
  block_level_assert_unreachable zeroStyle "ltr" 1000 none _ 0 0 rfl rfl rfl

/-- C6: a percentage `P` against reference `R` resolves to `P*R/100`, and
any single-component value of magnitude zero resolves to `0` whatever its
type tag and declared unit. -/
theorem percentage_and_zero_law :
    (∀ (q R : ℚ) (d : Option String) (vv : CompValue),
      resolve_one_percentage
        { components := [{ type := "PERCENTAGE", dimension := d,
                           value := .num q }],
          value := vv } (some R) =
        Except.ok (.len (q * R / 100)))
    ∧ (∀ (t : String) (d : Option String) (vv : CompValue) (R : Option ℚ),
      resolve_one_percentage
        { components := [{ type := t, dimension := d, value := .num 0 }],
          value := vv } R = Except.ok (.len 0)) := by
  constructor
  · intro q R d vv
    by_cases hq : q = 0
    · subst hq
      simp [resolve_one_percentage, pixel_value, percentage_value]
    · simp [resolve_one_percentage, pixel_value, percentage_value, hq]
  · intro t d vv R
    by_cases ht : t = "DIMENSION" ∧ d = some "px"
    · simp [resolve_one_percentage, pixel_value, ht]
    · simp [resolve_one_percentage, pixel_value, percentage_value, ht]

/-- C7: under the upstream computed-value contract, `resolve_one_percentage`
fails with an assertion error exactly on the values that are neither a pixel
length, nor a bare zero, nor a percentage, nor the keyword `auto`; on the
four accepted shapes it never raises.  (An `.error` result produces no used
value at all.) -/
theorem resolve_assert_iff_unaccepted (v : StyleValue) (R : ℚ)
    (hwf : cssutils_wf v = true) :
    resolve_one_percentage v (some R) = Except.error () ↔
      accepted_shape v = false := by
  obtain ⟨comps, vv⟩ := v
  simp only [cssutils_wf, Bool.and_eq_true, List.all_eq_true] at hwf
  obtain ⟨htags, hval⟩ := hwf
  match comps with
  | [] =>
    by_cases hvv : vv = CompValue.str "auto" <;>
      simp [resolve_one_percentage, pixel_value, percentage_value,
        accepted_shape, hvv]
  | c1 :: c2 :: rest =>
    by_cases hvv : vv = CompValue.str "auto" <;>
      simp [resolve_one_percentage, pixel_value, percentage_value,
        accepted_shape, hvv]
  | [c] =>
    obtain ⟨t, d, cv⟩ := c
    have hv : vv = cv := by
      have := hval
      simp at this
      exact this
    subst hv
    cases vv with
    | num q =>
      by_cases ht : t = "DIMENSION" ∧ d = some "px"
      · -- a pixel length: accepted, never an error
        obtain ⟨ht1, ht2⟩ := ht
        subst ht1 ht2
        simp [resolve_one_percentage, pixel_value, accepted_shape,
          CompValue.isNum]
      · by_cases hq : q = 0
        · subst hq
          simp [resolve_one_percentage, pixel_value, accepted_shape, ht]
        · by_cases hp : t = "PERCENTAGE"
          · subst hp
            simp [resolve_one_percentage, pixel_value, percentage_value,
              accepted_shape, ht, hq, CompValue.isNum]
          · simp [resolve_one_percentage, pixel_value, percentage_value,
              accepted_shape, ht, hq, hp, CompValue.isNum]
            exact fun h1 h2 => ht ⟨h1, h2⟩
    | str s =>
      have hd : ¬ (t = "DIMENSION" ∨ t = "PERCENTAGE") := by
        intro hcon
        have := htags ⟨t, d, .str s⟩ (by simp)
        rw [if_pos hcon] at this
        simp [CompValue.isNum] at this
      push_neg at hd
      obtain ⟨hd1, hd2⟩ := hd
      by_cases hs : s = "auto"
      · subst hs
        simp [resolve_one_percentage, pixel_value, percentage_value,
          accepted_shape, hd1, hd2]
      · simp [resolve_one_percentage, pixel_value, percentage_value,
          accepted_shape, hd1, hd2, hs]

/-- Witness for C7: the well-formed keyword `none` is not an accepted shape
and makes `resolve_one_percentage` fail. -/
theorem resolve_assert_iff_unaccepted_witness :
    resolve_one_percentage noneV (some 100) = Except.error () :=
  (resolve_assert_iff_unaccepted noneV 100 (by rfl)).mpr (by rfl)

/-- C8: with an unknown containing-block height, the resolution pass sets
`min_height` to `0`, `max_height` to unconstrained and `height` to `auto`,
and resolves none of the three height properties against the unknown basis
(the outcome does not depend on their computed values at all). -/
theorem unknown_height_defaults :
    (∀ (style : Style) (isPage : Bool) (cb_width : ℚ) (r : Resolved),
      resolve_percentages style isPage cb_width none = Except.ok r →
      r.min_height = .len 0 ∧ r.max_height = none ∧ r.height = .auto)
    ∧ (∀ (style : Style) (isPage : Bool) (cb_width : ℚ)
        (mh mxh hh : StyleValue),
      resolve_percentages
        { style with min_height := mh, max_height := mxh, height := hh }
        isPage cb_width none =
      resolve_percentages style isPage cb_width none) := by
  constructor
  · intro style isPage cb_width r hres
    unfold resolve_percentages at hres
    split at hres
    all_goals
      rw [show resolve_heights style none =
        Except.ok (LengthOrAuto.len 0, none, LengthOrAuto.auto)
        from rfl] at hres
    all_goals simp only [] at hres
    all_goals split at hres
    all_goals
      first
        | exact Except.noConfusion hres
        | (rename_i heq
           injection heq with heq2
           subst heq2
           cases hres
           exact ⟨rfl, rfl, rfl⟩)
  · intro style isPage cb_width mh mxh hh
    rfl

/-- Projection `toNum` returns a number exactly for the `len` constructor. -/
theorem LengthOrAuto.toNum_eq_some {l : LengthOrAuto} {q : ℚ} :
    l.toNum = some q ↔ l = .len q := by
  cases l <;> simp [LengthOrAuto.toNum]

/-- Inversion for `block_level_dimensions`: a successful run is percentage
resolution followed by the solver, its three outputs written back. -/
theorem block_level_dimensions_inv (style : Style) (dir : String)
    (cb_width : ℚ) (cb_height : Option ℚ) (r : Resolved)
    (h : block_level_dimensions style dir cb_width cb_height =
      Except.ok r) :
    ∃ r0 pl pr, resolve_percentages style false cb_width cb_height =
        Except.ok r0 ∧
      r0.padding_left.toNum = some pl ∧ r0.padding_right.toNum = some pr ∧
      r = { r0 with
            width := .len (solve_block_width cb_width pl pr
              r0.border_left_width r0.border_right_width r0.width
              r0.margin_left r0.margin_right dir).1,
            margin_left := .len (solve_block_width cb_width pl pr
              r0.border_left_width r0.border_right_width r0.width
              r0.margin_left r0.margin_right dir).2.1,
            margin_right := .len (solve_block_width cb_width pl pr
              r0.border_left_width r0.border_right_width r0.width
              r0.margin_left r0.margin_right dir).2.2 } := by
  unfold block_level_dimensions at h
  split at h
  · exact Except.noConfusion h
  · rename_i r0 hr0
    simp only [] at h
    split at h
    · rename_i pl pr hpl hpr
      split at h
      · cases h
        exact ⟨r0, pl, pr, hr0, hpl, hpr, rfl⟩
      · exact Except.noConfusion h
    · exact Except.noConfusion h

/-- Any successful `block_level_dimensions` run satisfies the seven-term
box-model equation. -/
theorem block_level_dimensions_sum (style : Style) (dir : String)
    (cb_width : ℚ) (cb_height : Option ℚ) (r : Resolved)
    (h : block_level_dimensions style dir cb_width cb_height =
      Except.ok r) :
    boxSum r = some cb_width := by
  obtain ⟨r0, pl, pr, hr0, hpl, hpr, rfl⟩ :=
    block_level_dimensions_inv style dir cb_width cb_height r h
  have hsum := solve_block_width_sum cb_width pl pr r0.border_left_width
    r0.border_right_width r0.width r0.margin_left r0.margin_right dir
  rw [LengthOrAuto.toNum_eq_some] at hpl hpr
  simp only [boxSum, hpl, hpr, LengthOrAuto.toNum, Option.some.injEq]
  linarith

/-- Inversion for `page_dimensions`: outer size defaulting and the
position/size equations of layout.py 148–151. -/
theorem page_dimensions_spec (style : Style) (w h : Option ℚ)
    (p : PageResult) (hres : page_dimensions style w h = Except.ok p) :
    p.outer_width = (match w with
      | none => 210 * LENGTHS_TO_PIXELS_mm
      | some x => x) ∧
    p.outer_height = (match h with
      | none => 297 * LENGTHS_TO_PIXELS_mm
      | some x => x) ∧
    resolve_percentages style true p.outer_width (some p.outer_height) =
      Except.ok p.resolved ∧
    pageGeom p := by
  unfold page_dimensions at hres
  simp only [] at hres
  split at hres
  · exact Except.noConfusion hres
  · rename_i r0 hr0
    split at hres
    · rename_i ml mr mt mb hml hmr hmt hmb
      cases hres
      refine ⟨by cases w <;> rfl, by cases h <;> rfl, hr0, ?_⟩
      exact ⟨ml, mr, mt, mb, LengthOrAuto.toNum_eq_some.mp hml,
        LengthOrAuto.toNum_eq_some.mp hmr, LengthOrAuto.toNum_eq_some.mp hmt,
        LengthOrAuto.toNum_eq_some.mp hmb, rfl, rfl, rfl, rfl⟩
    · exact Except.noConfusion hres

/-- Witness for C8 at the all-zero style with unknown containing-block
height. -/
theorem unknown_height_defaults_witness :
    ∃ r, resolve_percentages zeroStyle false 1000 none = Except.ok r ∧
      r.min_height = LengthOrAuto.len 0 ∧ r.max_height = none ∧
      r.height = LengthOrAuto.auto := by
  obtain ⟨r, hr⟩ : ∃ r, resolve_percentages zeroStyle false 1000 none =
      Except.ok r := ⟨_, rfl⟩
  exact ⟨r, hr, unknown_height_defaults.1 zeroStyle false 1000 r hr⟩

/-- C9: a page box resolved without caller-supplied outer size defaults to
210mm × 297mm in pixels (caller-supplied sizes are used verbatim), and its
position and inner size are determined by its margins. -/
theorem page_defaults :
    (∀ (style : Style) (p : PageResult),
      page_dimensions style none none = Except.ok p →
      p.outer_width = 210 * LENGTHS_TO_PIXELS_mm ∧
      p.outer_height = 297 * LENGTHS_TO_PIXELS_mm ∧ pageGeom p)
    ∧ (∀ (style : Style) (w h : ℚ) (p : PageResult),
      page_dimensions style (some w) (some h) = Except.ok p →
      p.outer_width = w ∧ p.outer_height = h ∧ pageGeom p) := by
  constructor
  · intro style p hres
    obtain ⟨h1, h2, -, h4⟩ := page_dimensions_spec style none none p hres
    exact ⟨h1, h2, h4⟩
  · intro style w h p hres
    obtain ⟨h1, h2, -, h4⟩ :=
      page_dimensions_spec style (some w) (some h) p hres
    exact ⟨h1, h2, h4⟩

/-- Witness for C9 at the all-zero style. -/
theorem page_defaults_witness :
    ∃ p, page_dimensions zeroStyle none none = Except.ok p ∧
      p.outer_width = 210 * LENGTHS_TO_PIXELS_mm ∧
      p.outer_height = 297 * LENGTHS_TO_PIXELS_mm ∧ pageGeom p := by
  obtain ⟨p, hp⟩ : ∃ p, page_dimensions zeroStyle none none =
      Except.ok p := ⟨_, rfl⟩
  exact ⟨p, hp, page_defaults.1 zeroStyle p hp⟩

/-- C1 counterexample: a page box with a nonzero left padding violates the
seven-term invariant against its own outer width — `page_dimensions`
subtracts only the margins when computing the page used width, so the sum
overshoots by the paddings and borders. -/
theorem page_invariant_counterexample :
    ∃ p, page_dimensions { zeroStyle with padding_left := pxV 1 }
        (some 1000) (some 500) = Except.ok p ∧
      pageSum p = some 1001 ∧ p.outer_width = 1000 ∧
      pageSum p ≠ some p.outer_width := by
  refine ⟨_, rfl, ?_, rfl, ?_⟩
  · norm_num [pageSum, LengthOrAuto.toNum, zeroStyle]
  · norm_num [pageSum, LengthOrAuto.toNum, zeroStyle]

/-- C1 (amended): every resolved `BlockLevel`/`Block` box satisfies
`margin_left + border_left_width + padding_left + width + padding_right +
border_right_width + margin_right = containing_block_width` exactly; a
resolved `Page` box satisfies only `margin_left + width + margin_right =
outer_width`, so its seven-term sum equals `outer_width` just when its
left/right paddings and borders are all zero. -/
theorem box_model_sum_amended :
    (∀ (style : Style) (dir : String) (cb_width : ℚ)
        (cb_height : Option ℚ) (r : Resolved),
      block_level_dimensions style dir cb_width cb_height = Except.ok r →
      boxSum r = some cb_width)
    ∧ (∀ (style : Style) (w h : Option ℚ) (p : PageResult),
      page_dimensions style w h = Except.ok p →
      ∃ ml mr : ℚ, p.resolved.margin_left = .len ml ∧
        p.resolved.margin_right = .len mr ∧
        ml + p.width + mr = p.outer_width) := by
  constructor
  · exact block_level_dimensions_sum
  · intro style w h p hres
    obtain ⟨-, -, -, ml, mr, mt, mb, hml, hmr, hmt, hmb, hx, hy, hw, hh⟩ :=
      page_dimensions_spec style w h p hres
    exact ⟨ml, mr, hml, hmr, by rw [hw]; ring⟩

/-- Witness for C1 (amended): both conjuncts at the all-zero style. -/
theorem box_model_sum_amended_witness :
    (∃ r, block_level_dimensions zeroStyle "ltr" 1000 none = Except.ok r ∧
      boxSum r = some 1000) ∧
    (∃ p, page_dimensions zeroStyle (some 1000) (some 500) = Except.ok p ∧
      ∃ ml mr : ℚ, p.resolved.margin_left = .len ml ∧
        p.resolved.margin_right = .len mr ∧
        ml + p.width + mr = p.outer_width) := by
  constructor
  · obtain ⟨r, hr⟩ := block_level_dimensions_total zeroStyle "ltr" 1000
      none _ 0 0 rfl rfl rfl
    exact ⟨r, hr, box_model_sum_amended.1 zeroStyle "ltr" 1000 none r hr⟩
  · obtain ⟨p, hp⟩ : ∃ p, page_dimensions zeroStyle (some 1000)
        (some 500) = Except.ok p := ⟨_, rfl⟩
    exact ⟨p, hp,
      box_model_sum_amended.2 zeroStyle (some 1000) (some 500) p hp⟩

/-- Changing only the min/max size style properties cannot change any of
the resolved values the width solver reads. -/
theorem resolve_percentages_minmax_agnostic (style : Style)
    (mw mxw mh mxh : StyleValue) (isPage : Bool) (cb_width : ℚ)
    (cb_height : Option ℚ) (r r' : Resolved)
    (h : resolve_percentages style isPage cb_width cb_height =
      Except.ok r)
    (h' : resolve_percentages
      { style with
        min_width := mw, max_width := mxw, min_height := mh,
        max_height := mxh } isPage cb_width cb_height = Except.ok r') :
    r'.margin_left = r.margin_left ∧ r'.margin_right = r.margin_right ∧
    r'.padding_left = r.padding_left ∧ r'.padding_right = r.padding_right ∧
    r'.width = r.width ∧ r'.border_left_width = r.border_left_width ∧
    r'.border_right_width = r.border_right_width := by
  cases isPage
  all_goals unfold resolve_percentages at h h'
  all_goals simp only [Bool.false_eq_true, if_true, if_false] at h h'
  all_goals split at h
  all_goals try exact Except.noConfusion h
  all_goals rename_i hml hmr hpl hpr hti hw hmnw hmt hmb hpt hpb hmxw hhs
  all_goals split at h'
  all_goals try exact Except.noConfusion h'
  all_goals
    rename_i hml' hmr' hpl' hpr' hti' hw' hmnw' hmt' hmb' hpt' hpb' hmxw'
      hhs'
  all_goals
    have eml := hml.symm.trans hml'
    have emr := hmr.symm.trans hmr'
    have epl := hpl.symm.trans hpl'
    have epr := hpr.symm.trans hpr'
    have ew := hw.symm.trans hw'
    injection eml with eml
    injection emr with emr
    injection epl with epl
    injection epr with epr
    injection ew with ew
    cases h
    cases h'
    subst eml emr epl epr ew
    exact ⟨rfl, rfl, rfl, rfl, rfl, rfl, rfl⟩

/-- C10: the used width and margins produced by the block solver do not
depend on the min/max size style properties — two resolutions identical
except for `min-width`, `max-width`, `min-height` and `max-height` agree on
them; the resolved `min_width`/`max_width` are stored but never applied as
clamps, so the used width can exceed `max_width` or even be negative. -/
theorem minmax_independence :
    (∀ (style : Style) (dir : String) (cb_width : ℚ)
        (cb_height : Option ℚ) (mw mxw mh mxh : StyleValue)
        (r r' : Resolved),
      block_level_dimensions style dir cb_width cb_height = Except.ok r →
      block_level_dimensions
        { style with
          min_width := mw, max_width := mxw, min_height := mh,
          max_height := mxh } dir cb_width cb_height = Except.ok r' →
      r'.width = r.width ∧ r'.margin_left = r.margin_left ∧
      r'.margin_right = r.margin_right)
    ∧ (∃ r, block_level_dimensions
        { zeroStyle with
          width := pxV 500, max_width := pxV 10 } "ltr" 1000 none =
        Except.ok r ∧
      r.max_width = some (.len 10) ∧ r.width = .len 500)
    ∧ (∃ r, block_level_dimensions
        { zeroStyle with
          width := autoV, padding_left := pxV 60,
          padding_right := pxV 60 } "ltr" 100 none = Except.ok r ∧
      r.width = .len (-20)) := by
  refine ⟨?_, ?_, ?_⟩
  · intro style dir cb_width cb_height mw mxw mh mxh r r' h h'
    obtain ⟨r0, pl, pr, hres, hpl, hpr, rfl⟩ :=
      block_level_dimensions_inv style dir cb_width cb_height r h
    obtain ⟨r0', pl', pr', hres', hpl', hpr', rfl⟩ :=
      block_level_dimensions_inv _ dir cb_width cb_height r' h'
    obtain ⟨eml, emr, epl, epr, ew, ebl, ebr⟩ :=
      resolve_percentages_minmax_agnostic style mw mxw mh mxh false
        cb_width cb_height r0 r0' hres hres'
    rw [epl, hpl] at hpl'
    rw [epr, hpr] at hpr'
    injection hpl' with hpl'
    injection hpr' with hpr'
    subst hpl' hpr'
    refine ⟨?_, ?_, ?_⟩ <;> simp only [eml, emr, epl, epr, ew, ebl, ebr]
  · refine ⟨{
      margin_left := LengthOrAuto.len 0,
      margin_right := LengthOrAuto.len 500,
      margin_top := LengthOrAuto.len 0, margin_bottom := LengthOrAuto.len 0,
      padding_left := LengthOrAuto.len 0,
      padding_right := LengthOrAuto.len 0,
      padding_top := LengthOrAuto.len 0,
      padding_bottom := LengthOrAuto.len 0,
      text_indent := LengthOrAuto.len 0, width := LengthOrAuto.len 500,
      min_width := LengthOrAuto.len 0,
      max_width := some (LengthOrAuto.len 10),
      min_height := LengthOrAuto.len 0, max_height := none,
      height := LengthOrAuto.auto, border_top_width := 0,
      border_right_width := 0, border_bottom_width := 0,
      border_left_width := 0 }, ?_, rfl, rfl⟩
    norm_num [block_level_dimensions, resolve_percentages,
      resolve_one_percentage, pixel_value, percentage_value,
      resolve_max_width, resolve_heights, solve_block_width,
      LengthOrAuto.toNum, LengthOrAuto.orZero, LengthOrAuto.autoTo0,
      zeroStyle, pxV, autoV, noneV,
      show (CompValue.num 10 = CompValue.str "none") = False by simp]
  · refine ⟨{
      margin_left := LengthOrAuto.len 0,
      margin_right := LengthOrAuto.len 0,
      margin_top := LengthOrAuto.len 0, margin_bottom := LengthOrAuto.len 0,
      padding_left := LengthOrAuto.len 60,
      padding_right := LengthOrAuto.len 60,
      padding_top := LengthOrAuto.len 0,
      padding_bottom := LengthOrAuto.len 0,
      text_indent := LengthOrAuto.len 0, width := LengthOrAuto.len (-20),
      min_width := LengthOrAuto.len 0, max_width := none,
      min_height := LengthOrAuto.len 0, max_height := none,
      height := LengthOrAuto.auto, border_top_width := 0,
      border_right_width := 0, border_bottom_width := 0,
      border_left_width := 0 }, ?_, rfl⟩
    norm_num [block_level_dimensions, resolve_percentages,
      resolve_one_percentage, pixel_value, percentage_value,
      resolve_max_width, resolve_heights, solve_block_width,
      LengthOrAuto.toNum, LengthOrAuto.orZero, LengthOrAuto.autoTo0,
      zeroStyle, pxV, autoV, noneV,
      show ("IDENT" = "DIMENSION" ∧ (none : Option String) = some "px") =
        False by simp,
      show (CompValue.str "auto" = CompValue.num 0) = False by simp,
      show ("IDENT" = "PERCENTAGE") = False by simp]

/-- Witness for the independence part of C10 at the all-zero style with modified
min/max properties. -/
theorem minmax_independence_witness :
    ∃ r r', block_level_dimensions zeroStyle "ltr" 1000 none =
        Except.ok r ∧
      block_level_dimensions
        { zeroStyle with
          min_width := pxV 5, max_width := pxV 7, min_height := pxV 3,
          max_height := pxV 9 } "ltr" 1000 none = Except.ok r' ∧
      r'.width = r.width ∧ r'.margin_left = r.margin_left ∧
      r'.margin_right = r.margin_right := by
  obtain ⟨r, hr⟩ := block_level_dimensions_total zeroStyle "ltr" 1000 none
    _ 0 0 rfl rfl rfl
  obtain ⟨r', hr'⟩ := block_level_dimensions_total
    { zeroStyle with
      min_width := pxV 5, max_width := pxV 7, min_height := pxV 3,
      max_height := pxV 9 } "ltr" 1000 none _ 0 0 rfl rfl rfl
  exact ⟨r, r', hr, hr', minmax_independence.1 zeroStyle "ltr" 1000 none
    (pxV 5) (pxV 7) (pxV 3) (pxV 9) r r' hr hr'⟩

end Weasy
